import Mathlib

/-!
Verification of the World Progression Engine of the op-tcg backend.

Shallow embedding of the relevant parts of the repository:
- `src/server/src/models/User.ts` (`UserModel`: `create`, `findById`, `update`,
  `addBerrys`);
- `src/server/src/scripts/seed-world-map-data.ts` (`seedWorldMapData`,
  `initializeExistingUsers`, and the concrete island / crew-member / quest
  seed catalog);
- the world-map model and quest scheduler (`models/WorldMap.ts` and the quest
  routes are not among the provided files): those operations are modelled from
  the specification and are marked `Modelled from the spec:` in their doc
  comments.

The database is modelled as an explicit record of tables (lists of rows);
each SQL statement of the source becomes a pure state transformation.
Display-only columns that no engine logic reads (`name`, `description`,
`image_url`, timestamps of catalog rows) are omitted from the row types;
every column an operation or a claim touches is kept.
-/

/-- Identifier of the root island (`island_windmill_village`), the first
island every account must have (source: `seed-world-map-data.ts`). -/
def rootIslandId : String := "island_windmill_village"

/-- Identifier of the root crew member (`crew_luffy`), unlocked from account
creation (source: `seed-world-map-data.ts`). -/
def rootCrewId : String := "crew_luffy"

/-- Row of the `users` table, after the `User` interface of `User.ts`.
Optional columns are `Option`; `berrys` is `Option Int` because the SQL uses
`COALESCE(berrys, 0)`. -/
structure UserRow where
  id : String
  username : String
  password_hash : String
  created_at : String
  updated_at : String
  last_login : Option String
  is_admin : Bool
  is_active : Bool
  available_boosters : Option Int
  next_booster_time : Option String
  boosters_opened_today : Option Int
  last_booster_opened : Option String
  berrys : Option Int
  favorite_card_id : Option String
deriving Repr, DecidableEq

/-- Row of the `islands` catalog table, after the `IslandData` interface of
`seed-world-map-data.ts` (display-only `name` and `description` omitted). -/
structure IslandRow where
  id : String
  order_index : Nat
  latitude : Int
  longitude : Int
  unlock_requirement_island_id : Option String
  final_reward_type : Option String
  final_reward_value : Option Int
  final_reward_crew_member_id : Option String
deriving Repr, DecidableEq

/-- Row of the `crew_members` catalog table, after the `CrewMemberData`
interface (display-only `name`, `description`, `image_url` omitted). -/
structure CrewMemberRow where
  id : String
  unlock_island_id : Option String
  order_index : Nat
deriving Repr, DecidableEq

/-- Row of the `quests` catalog table, after the `QuestData` interface
(display-only `name` and `description` omitted). -/
structure QuestRow where
  id : String
  island_id : String
  duration_hours : Nat
  reward_berrys : Int
  required_crew_count : Nat
  specific_crew_member_id : Option String
  order_index : Nat
  is_repeatable : Bool
deriving Repr, DecidableEq

/-- Modelled from the spec: an Active quest instance (§3): (user, quest
template, assigned companions, start time). The scheduler's tables are not
among the provided files. Time is in hours, matching `duration_hours`. -/
structure ActiveQuest where
  user_id : String
  quest_id : String
  crew : List String
  started_at : Nat
deriving Repr, DecidableEq

/-- Modelled from the spec: a quest-history record (§3): append-only record of
(user, quest template, companions used, start time, completion time, reward
granted). -/
structure QuestHistoryRow where
  user_id : String
  quest_id : String
  crew : List String
  started_at : Nat
  completed_at : Nat
  reward_berrys : Int
deriving Repr, DecidableEq

/-- The database state: one field per table the engine touches.
`user_islands` and `user_crew_members` hold the per-user unlock rows as
(user id, entity id) pairs, existence-based as in the source's
`SELECT id FROM user_islands WHERE user_id = ? AND island_id = ?` checks. -/
structure DbState where
  users : List UserRow
  user_islands : List (String × String)
  user_crew_members : List (String × String)
  active_quests : List ActiveQuest
  quest_history : List QuestHistoryRow
  islands : List IslandRow
  crew_members : List CrewMemberRow
  quests : List QuestRow
deriving Repr, DecidableEq

/-- The empty database. -/
def emptyDb : DbState :=
  { users := [], user_islands := [], user_crew_members := [],
    active_quests := [], quest_history := [], islands := [],
    crew_members := [], quests := [] }

namespace WorldMapModel

/-- Modelled from the spec: `WorldMapModel.unlockIsland` (the file
`models/WorldMap.ts` is not among the provided files). Spec §4.2:
"idempotent — inserting an unlock record for an already-unlocked island is a
no-op, never an error, never a duplicate row". -/
def unlockIsland (s : DbState) (userId islandId : String) : DbState :=
  if (userId, islandId) ∈ s.user_islands then s
  else { s with user_islands := s.user_islands ++ [(userId, islandId)] }

/-- Modelled from the spec: `WorldMapModel.unlockCrewMember` (the file
`models/WorldMap.ts` is not among the provided files). Spec §4.2: "same
idempotency contract" as `unlockIsland`. -/
def unlockCrewMember (s : DbState) (userId crewId : String) : DbState :=
  if (userId, crewId) ∈ s.user_crew_members then s
  else { s with user_crew_members := s.user_crew_members ++ [(userId, crewId)] }

end WorldMapModel

namespace UserModel

/-- The application-wide berry cap, `MAX_BERRYS` in `UserModel.addBerrys`. -/
def MAX_BERRYS : Int := 999999999

/-- Effect of `UserModel.addBerrys` on one user row:
`SET berrys = MIN(COALESCE(berrys, 0) + ?, 999999999)`. -/
def addBerrysRow (r : UserRow) (amount : Int) : UserRow :=
  { r with berrys := some (min (r.berrys.getD 0 + amount) MAX_BERRYS) }

/-- `UserModel.addBerrys`: `UPDATE users SET berrys = MIN(COALESCE(berrys, 0)
+ ?, ?) WHERE id = ?` (no `is_active` filter in this statement). -/
def addBerrys (s : DbState) (userId : String) (amount : Int) : DbState :=
  { s with users := s.users.map (fun r =>
      if r.id == userId then addBerrysRow r amount else r) }

/-- A sequence of `addBerrys` calls on one row (repeated currency grants). -/
def grantBerrysSeq (r : UserRow) (amounts : List Int) : UserRow :=
  amounts.foldl addBerrysRow r

/-- `UserModel.findById`: `SELECT * FROM users WHERE id = ? AND is_active = 1`
(first matching row; the date conversion of the source does not change any
modelled column). -/
def findById (s : DbState) (id : String) : Option UserRow :=
  s.users.find? (fun r => r.id == id && r.is_active)

/-- The `UserUpdate` interface of `User.ts`: each field optional
(`undefined` = absent). -/
structure UserUpdate where
  username : Option String
  password : Option String
  is_admin : Option Bool
  is_active : Option Bool
deriving Repr, DecidableEq

/-- `UserModel.update`: collects the defined fields; when none is defined
(`fields.length === 0`) it performs no write and returns `findById(id)`;
otherwise it updates the defined columns plus `updated_at = now` on the rows
matching `id`, then returns `findById(id)` on the new state. `hash` stands
for `bcrypt.hash`. -/
def update (s : DbState) (id : String) (upd : UserUpdate)
    (hash : String → String) (now : String) : DbState × Option UserRow :=
  if upd.username.isNone && upd.password.isNone
      && upd.is_admin.isNone && upd.is_active.isNone then
    (s, findById s id)
  else
    let s' : DbState := { s with users := s.users.map (fun r =>
      if r.id == id then
        { r with
          username := upd.username.getD r.username,
          password_hash := (upd.password.map hash).getD r.password_hash,
          is_admin := upd.is_admin.getD r.is_admin,
          is_active := upd.is_active.getD r.is_active,
          updated_at := now }
      else r) }
    (s', findById s' id)

/-- A freshly inserted user row: `INSERT INTO users (id, username,
password_hash) VALUES (?, ?, ?)`; the remaining columns take their schema
defaults (active account, no optional data). -/
def newUserRow (id username password_hash : String) : UserRow :=
  { id := id, username := username, password_hash := password_hash,
    created_at := "", updated_at := "", last_login := none,
    is_admin := false, is_active := true,
    available_boosters := none, next_booster_time := none,
    boosters_opened_today := none, last_booster_opened := none,
    berrys := none, favorite_card_id := none }

/-- `UserModel.create`: inserts the user row, reads it back with `findById`,
then inside a `try`/`catch` unlocks the root island and the root crew member;
the `catch` only logs, so a throw in the unlock step never changes the
returned value. `unlocksDone` is how many of the two unlock calls completed
before the initialization step threw (`2` = no throw); the row insert and the
`findById` are outside the `try`. -/
def create (s : DbState) (id username hashed : String) (unlocksDone : Nat) :
    DbState × Except String UserRow :=
  let s1 : DbState := { s with users := s.users ++ [newUserRow id username hashed] }
  match findById s1 id with
  | none => (s1, Except.error "Erreur lors de la creation de l utilisateur")
  | some user =>
    let s2 := if 1 ≤ unlocksDone then WorldMapModel.unlockIsland s1 id rootIslandId else s1
    let s3 := if 2 ≤ unlocksDone then WorldMapModel.unlockCrewMember s2 id rootCrewId else s2
    (s3, Except.ok user)

end UserModel

/-- Ids of the active users: `SELECT id FROM users WHERE is_active = 1`. -/
def activeUserIds (s : DbState) : List String :=
  (s.users.filter (fun r => r.is_active)).map (fun r => r.id)

/-- One iteration of the per-user loop of `initializeExistingUsers`: check
for the first island, unlock it if absent; check for Luffy, unlock him if
absent; the returned flag is the loop's `userNeedsInit`. -/
def reconcileUser (s : DbState) (userId : String) : DbState × Bool :=
  let hasFirstIsland : Bool := decide ((userId, rootIslandId) ∈ s.user_islands)
  let s1 := if hasFirstIsland then s else WorldMapModel.unlockIsland s userId rootIslandId
  let hasLuffy : Bool := decide ((userId, rootCrewId) ∈ s1.user_crew_members)
  let s2 := if hasLuffy then s1 else WorldMapModel.unlockCrewMember s1 userId rootCrewId
  (s2, !hasFirstIsland || !hasLuffy)

/-- The `for (const user of users)` loop of `initializeExistingUsers`,
threading the state and counting the users for which `userNeedsInit` held. -/
def initUsersLoop (s : DbState) : List String → DbState × Nat
  | [] => (s, 0)
  | u :: rest =>
    let r := reconcileUser s u
    let t := initUsersLoop r.1 rest
    (t.1, (if r.2 then 1 else 0) + t.2)

/-- `initializeExistingUsers` of `seed-world-map-data.ts`: reconcile every
active user; the returned number is `usersInitialized`. -/
def initializeExistingUsers (s : DbState) : DbState × Nat :=
  initUsersLoop s (activeUserIds s)

/-- Modelled from the spec: the tagged reward value of `grantReward` (§4.2):
"{currency amount} or {crew member id}". -/
inductive Reward where
  | berrysAmount (amount : Int)
  | crewMemberId (crewId : String)
deriving Repr, DecidableEq

/-- Modelled from the spec: `grantReward` (§4.2; the Ledger file is not among
the provided files): "currency rewards add to the user's balance with an
application-wide cap … crew-member rewards call `unlockCrewMember`". The
currency path is the source's `UserModel.addBerrys`. -/
def grantReward (s : DbState) (userId : String) : Reward → DbState
  | Reward.berrysAmount amount => UserModel.addBerrys s userId amount
  | Reward.crewMemberId crewId => WorldMapModel.unlockCrewMember s userId crewId

/-- Modelled from the spec: the error kinds of §7 that a scheduler operation
can report. -/
inductive SchedulerError where
  | PreconditionViolation
  | ConfigurationError
deriving Repr, DecidableEq

/-- Modelled from the spec: is `crewId` busy for `userId`, i.e. assigned to
one of that user's Active instances (§3)? -/
def companionBusy (s : DbState) (userId crewId : String) : Bool :=
  s.active_quests.any (fun q => q.user_id == userId && q.crew.contains crewId)

/-- Modelled from the spec: the Start transition of the quest scheduler
(§4.3; the scheduler's file is not among the provided files). Preconditions
(a)–(e), checked in order; any violation rejects the call with
`PreconditionViolation` and performs no write; on success an Active instance
anchored at `now` is inserted. -/
def startQuest (s : DbState) (userId questId : String)
    (companions : List String) (now : Nat) :
    DbState × Except SchedulerError ActiveQuest :=
  match s.quests.find? (fun q => q.id == questId) with
  | none => (s, Except.error SchedulerError.PreconditionViolation)
  | some q =>
    if !(s.user_islands.contains (userId, q.island_id)) then
      (s, Except.error SchedulerError.PreconditionViolation)
    else if companions.length != q.required_crew_count then
      (s, Except.error SchedulerError.PreconditionViolation)
    else if !(q.specific_crew_member_id.all (fun c => companions.contains c)) then
      (s, Except.error SchedulerError.PreconditionViolation)
    else if !(companions.all (fun c => s.user_crew_members.contains (userId, c))) then
      (s, Except.error SchedulerError.PreconditionViolation)
    else if companions.any (fun c => companionBusy s userId c) then
      (s, Except.error SchedulerError.PreconditionViolation)
    else if !q.is_repeatable && s.quest_history.any
        (fun h => h.user_id == userId && h.quest_id == questId) then
      (s, Except.error SchedulerError.PreconditionViolation)
    else
      let inst : ActiveQuest :=
        { user_id := userId, quest_id := questId, crew := companions, started_at := now }
      ({ s with active_quests := s.active_quests ++ [inst] }, Except.ok inst)

/-- Modelled from the spec: granting an island's `completion_reward` (§3,
§4.3): a currency amount or a crew-member unlock. -/
def grantIslandReward (s : DbState) (userId : String) (isl : IslandRow) : DbState :=
  match isl.final_reward_type with
  | some "berrys" =>
    match isl.final_reward_value with
    | some v => UserModel.addBerrys s userId v
    | none => s
  | some "crew_member" =>
    match isl.final_reward_crew_member_id with
    | some c => WorldMapModel.unlockCrewMember s userId c
    | none => s
  | _ => s

/-- Modelled from the spec: after an island is cleared, grant its completion
reward and unlock the next island in the chain (§4.3's call into the Unlock
Graph Resolver). -/
def unlockNextAfter (s : DbState) (userId islandId : String) : DbState :=
  let s1 := match s.islands.find? (fun i => i.id == islandId) with
    | some isl => grantIslandReward s userId isl
    | none => s
  match s1.islands.find? (fun i => i.unlock_requirement_island_id == some islandId) with
  | some nxt => WorldMapModel.unlockIsland s1 userId nxt.id
  | none => s1

/-- Modelled from the spec: the Collect transition (§4.3). `cleared` is the
`isIslandCleared` extension point (§4.3, left open by §9); `idx` selects the
Active instance. Collect on a missing or not-yet-due instance fails with no
write; on success it grants the currency reward, runs the island-completion
policy, appends the history record and retires the instance in one step. -/
def collectQuest (cleared : DbState → String → String → Bool)
    (s : DbState) (userId : String) (idx : Nat) (now : Nat) :
    DbState × Except SchedulerError QuestHistoryRow :=
  match s.active_quests[idx]? with
  | none => (s, Except.error SchedulerError.PreconditionViolation)
  | some inst =>
    if inst.user_id != userId then
      (s, Except.error SchedulerError.PreconditionViolation)
    else
      match s.quests.find? (fun q => q.id == inst.quest_id) with
      | none => (s, Except.error SchedulerError.ConfigurationError)
      | some q =>
        if now < inst.started_at + q.duration_hours then
          (s, Except.error SchedulerError.PreconditionViolation)
        else
          let s1 := UserModel.addBerrys s userId q.reward_berrys
          let s2 := if cleared s1 userId q.island_id
                    then unlockNextAfter s1 userId q.island_id else s1
          let record : QuestHistoryRow :=
            { user_id := userId, quest_id := inst.quest_id, crew := inst.crew,
              started_at := inst.started_at, completed_at := now,
              reward_berrys := q.reward_berrys }
          ({ s2 with active_quests := s2.active_quests.eraseIdx idx,
                     quest_history := s2.quest_history ++ [record] },
           Except.ok record)

/-- The engine's operations in normal operation (§4): the Ledger primitives,
reconciliation, and the scheduler's Start and Collect. The catalog seed is
the external loader of §6, not a normal-operation engine op. -/
inductive EngineOp where
  | unlockIslandOp (userId islandId : String)
  | unlockCrewMemberOp (userId crewId : String)
  | grantRewardOp (userId : String) (r : Reward)
  | reconcileUserOp (userId : String)
  | reconcileAllOp
  | startQuestOp (userId questId : String) (companions : List String) (now : Nat)
  | collectQuestOp (userId : String) (idx : Nat) (now : Nat)
deriving Repr

/-- One engine operation as a state transformation (`cleared` instantiates
the `isIslandCleared` extension point). -/
def engineStep (cleared : DbState → String → String → Bool)
    (s : DbState) : EngineOp → DbState
  | EngineOp.unlockIslandOp u i => WorldMapModel.unlockIsland s u i
  | EngineOp.unlockCrewMemberOp u c => WorldMapModel.unlockCrewMember s u c
  | EngineOp.grantRewardOp u r => grantReward s u r
  | EngineOp.reconcileUserOp u => (reconcileUser s u).1
  | EngineOp.reconcileAllOp => (initializeExistingUsers s).1
  | EngineOp.startQuestOp u q comps now => (startQuest s u q comps now).1
  | EngineOp.collectQuestOp u idx now => (collectQuest cleared s u idx now).1

/-- The `crewMembers` seed array of `seedWorldMapData` (engine-relevant
columns). -/
def crewMembersSeed : List CrewMemberRow :=
  [ { id := "crew_luffy", unlock_island_id := none, order_index := 1 },
    { id := "crew_zoro", unlock_island_id := some "island_shells_town", order_index := 2 },
    { id := "crew_nami", unlock_island_id := some "island_orange_town", order_index := 3 },
    { id := "crew_usopp", unlock_island_id := some "island_syrup_village", order_index := 4 },
    { id := "crew_sanji", unlock_island_id := some "island_baratie", order_index := 5 },
    { id := "crew_chopper", unlock_island_id := some "island_drum", order_index := 6 },
    { id := "crew_robin", unlock_island_id := some "island_alabasta", order_index := 7 },
    { id := "crew_franky", unlock_island_id := some "island_water_seven", order_index := 8 },
    { id := "crew_brook", unlock_island_id := some "island_thriller_bark", order_index := 9 } ]

/-- The `islands` seed array of `seedWorldMapData` (engine-relevant columns). -/
def islandsSeed : List IslandRow :=
  [ { id := "island_windmill_village", order_index := 1, latitude := 12, longitude := 8,
      unlock_requirement_island_id := none,
      final_reward_type := some "berrys", final_reward_value := some 500,
      final_reward_crew_member_id := none },
    { id := "island_shells_town", order_index := 2, latitude := 18, longitude := 15,
      unlock_requirement_island_id := some "island_windmill_village",
      final_reward_type := some "crew_member", final_reward_value := none,
      final_reward_crew_member_id := some "crew_zoro" },
    { id := "island_orange_town", order_index := 3, latitude := 25, longitude := 12,
      unlock_requirement_island_id := some "island_shells_town",
      final_reward_type := some "crew_member", final_reward_value := none,
      final_reward_crew_member_id := some "crew_nami" },
    { id := "island_syrup_village", order_index := 4, latitude := 32, longitude := 18,
      unlock_requirement_island_id := some "island_orange_town",
      final_reward_type := some "crew_member", final_reward_value := none,
      final_reward_crew_member_id := some "crew_usopp" },
    { id := "island_baratie", order_index := 5, latitude := 38, longitude := 25,
      unlock_requirement_island_id := some "island_syrup_village",
      final_reward_type := some "crew_member", final_reward_value := none,
      final_reward_crew_member_id := some "crew_sanji" },
    { id := "island_arlong_park", order_index := 6, latitude := 45, longitude := 32,
      unlock_requirement_island_id := some "island_baratie",
      final_reward_type := some "berrys", final_reward_value := some 2000,
      final_reward_crew_member_id := none },
    { id := "island_loguetown", order_index := 7, latitude := 48, longitude := 42,
      unlock_requirement_island_id := some "island_arlong_park",
      final_reward_type := some "berrys", final_reward_value := some 3000,
      final_reward_crew_member_id := none },
    { id := "island_drum", order_index := 8, latitude := 42, longitude := 52,
      unlock_requirement_island_id := some "island_loguetown",
      final_reward_type := some "crew_member", final_reward_value := none,
      final_reward_crew_member_id := some "crew_chopper" },
    { id := "island_alabasta", order_index := 9, latitude := 35, longitude := 58,
      unlock_requirement_island_id := some "island_drum",
      final_reward_type := some "crew_member", final_reward_value := none,
      final_reward_crew_member_id := some "crew_robin" },
    { id := "island_water_seven", order_index := 10, latitude := 28, longitude := 65,
      unlock_requirement_island_id := some "island_alabasta",
      final_reward_type := some "crew_member", final_reward_value := none,
      final_reward_crew_member_id := some "crew_franky" },
    { id := "island_thriller_bark", order_index := 11, latitude := 22, longitude := 75,
      unlock_requirement_island_id := some "island_water_seven",
      final_reward_type := some "crew_member", final_reward_value := none,
      final_reward_crew_member_id := some "crew_brook" },
    { id := "island_sabaody", order_index := 12, latitude := 15, longitude := 85,
      unlock_requirement_island_id := some "island_thriller_bark",
      final_reward_type := some "berrys", final_reward_value := some 10000,
      final_reward_crew_member_id := none } ]

/-- The `quests` seed array of `seedWorldMapData` (engine-relevant columns). -/
def questsSeed : List QuestRow :=
  [ { id := "quest_fuchsia_1", island_id := "island_windmill_village", duration_hours := 1,
      reward_berrys := 50, required_crew_count := 1,
      specific_crew_member_id := some "crew_luffy", order_index := 1, is_repeatable := true },
    { id := "quest_fuchsia_2", island_id := "island_windmill_village", duration_hours := 2,
      reward_berrys := 75, required_crew_count := 1,
      specific_crew_member_id := none, order_index := 2, is_repeatable := true },
    { id := "quest_fuchsia_3", island_id := "island_windmill_village", duration_hours := 3,
      reward_berrys := 100, required_crew_count := 1,
      specific_crew_member_id := none, order_index := 3, is_repeatable := true },
    { id := "quest_shells_1", island_id := "island_shells_town", duration_hours := 2,
      reward_berrys := 100, required_crew_count := 1,
      specific_crew_member_id := some "crew_luffy", order_index := 1, is_repeatable := true },
    { id := "quest_shells_2", island_id := "island_shells_town", duration_hours := 3,
      reward_berrys := 150, required_crew_count := 2,
      specific_crew_member_id := none, order_index := 2, is_repeatable := true },
    { id := "quest_shells_3", island_id := "island_shells_town", duration_hours := 4,
      reward_berrys := 200, required_crew_count := 1,
      specific_crew_member_id := none, order_index := 3, is_repeatable := true },
    { id := "quest_orange_1", island_id := "island_orange_town", duration_hours := 2,
      reward_berrys := 125, required_crew_count := 1,
      specific_crew_member_id := none, order_index := 1, is_repeatable := true },
    { id := "quest_orange_2", island_id := "island_orange_town", duration_hours := 3,
      reward_berrys := 175, required_crew_count := 2,
      specific_crew_member_id := some "crew_luffy", order_index := 2, is_repeatable := true },
    { id := "quest_orange_3", island_id := "island_orange_town", duration_hours := 2,
      reward_berrys := 150, required_crew_count := 1,
      specific_crew_member_id := some "crew_nami", order_index := 3, is_repeatable := true },
    { id := "quest_syrup_1", island_id := "island_syrup_village", duration_hours := 2,
      reward_berrys := 150, required_crew_count := 1,
      specific_crew_member_id := some "crew_usopp", order_index := 1, is_repeatable := true },
    { id := "quest_syrup_2", island_id := "island_syrup_village", duration_hours := 4,
      reward_berrys := 250, required_crew_count := 3,
      specific_crew_member_id := none, order_index := 2, is_repeatable := true },
    { id := "quest_syrup_3", island_id := "island_syrup_village", duration_hours := 3,
      reward_berrys := 200, required_crew_count := 1,
      specific_crew_member_id := none, order_index := 3, is_repeatable := true },
    { id := "quest_baratie_1", island_id := "island_baratie", duration_hours := 2,
      reward_berrys := 175, required_crew_count := 1,
      specific_crew_member_id := some "crew_sanji", order_index := 1, is_repeatable := true },
    { id := "quest_baratie_2", island_id := "island_baratie", duration_hours := 5,
      reward_berrys := 350, required_crew_count := 3,
      specific_crew_member_id := none, order_index := 2, is_repeatable := true },
    { id := "quest_baratie_3", island_id := "island_baratie", duration_hours := 4,
      reward_berrys := 300, required_crew_count := 1,
      specific_crew_member_id := some "crew_zoro", order_index := 3, is_repeatable := true },
    { id := "quest_arlong_1", island_id := "island_arlong_park", duration_hours := 3,
      reward_berrys := 250, required_crew_count := 2,
      specific_crew_member_id := none, order_index := 1, is_repeatable := true },
    { id := "quest_arlong_2", island_id := "island_arlong_park", duration_hours := 5,
      reward_berrys := 400, required_crew_count := 4,
      specific_crew_member_id := some "crew_luffy", order_index := 2, is_repeatable := true },
    { id := "quest_arlong_3", island_id := "island_arlong_park", duration_hours := 4,
      reward_berrys := 350, required_crew_count := 1,
      specific_crew_member_id := some "crew_luffy", order_index := 3, is_repeatable := true },
    { id := "quest_logue_1", island_id := "island_loguetown", duration_hours := 1,
      reward_berrys := 200, required_crew_count := 1,
      specific_crew_member_id := none, order_index := 1, is_repeatable := true },
    { id := "quest_logue_2", island_id := "island_loguetown", duration_hours := 3,
      reward_berrys := 300, required_crew_count := 2,
      specific_crew_member_id := none, order_index := 2, is_repeatable := true },
    { id := "quest_logue_3", island_id := "island_loguetown", duration_hours := 4,
      reward_berrys := 400, required_crew_count := 3,
      specific_crew_member_id := none, order_index := 3, is_repeatable := true },
    { id := "quest_drum_1", island_id := "island_drum", duration_hours := 4,
      reward_berrys := 350, required_crew_count := 2,
      specific_crew_member_id := none, order_index := 1, is_repeatable := true },
    { id := "quest_drum_2", island_id := "island_drum", duration_hours := 5,
      reward_berrys := 500, required_crew_count := 3,
      specific_crew_member_id := none, order_index := 2, is_repeatable := true },
    { id := "quest_drum_3", island_id := "island_drum", duration_hours := 3,
      reward_berrys := 400, required_crew_count := 1,
      specific_crew_member_id := none, order_index := 3, is_repeatable := true },
    { id := "quest_alabasta_1", island_id := "island_alabasta", duration_hours := 5,
      reward_berrys := 500, required_crew_count := 3,
      specific_crew_member_id := none, order_index := 1, is_repeatable := true },
    { id := "quest_alabasta_2", island_id := "island_alabasta", duration_hours := 6,
      reward_berrys := 600, required_crew_count := 4,
      specific_crew_member_id := none, order_index := 2, is_repeatable := true },
    { id := "quest_alabasta_3", island_id := "island_alabasta", duration_hours := 6,
      reward_berrys := 700, required_crew_count := 1,
      specific_crew_member_id := some "crew_luffy", order_index := 3, is_repeatable := true },
    { id := "quest_water7_1", island_id := "island_water_seven", duration_hours := 3,
      reward_berrys := 450, required_crew_count := 2,
      specific_crew_member_id := none, order_index := 1, is_repeatable := true },
    { id := "quest_water7_2", island_id := "island_water_seven", duration_hours := 8,
      reward_berrys := 1000, required_crew_count := 5,
      specific_crew_member_id := none, order_index := 2, is_repeatable := true },
    { id := "quest_water7_3", island_id := "island_water_seven", duration_hours := 6,
      reward_berrys := 800, required_crew_count := 2,
      specific_crew_member_id := none, order_index := 3, is_repeatable := true },
    { id := "quest_thriller_1", island_id := "island_thriller_bark", duration_hours := 4,
      reward_berrys := 600, required_crew_count := 3,
      specific_crew_member_id := none, order_index := 1, is_repeatable := true },
    { id := "quest_thriller_2", island_id := "island_thriller_bark", duration_hours := 6,
      reward_berrys := 800, required_crew_count := 5,
      specific_crew_member_id := none, order_index := 2, is_repeatable := true },
    { id := "quest_thriller_3", island_id := "island_thriller_bark", duration_hours := 8,
      reward_berrys := 1200, required_crew_count := 6,
      specific_crew_member_id := none, order_index := 3, is_repeatable := true },
    { id := "quest_sabaody_1", island_id := "island_sabaody", duration_hours := 3,
      reward_berrys := 700, required_crew_count := 2,
      specific_crew_member_id := none, order_index := 1, is_repeatable := true },
    { id := "quest_sabaody_2", island_id := "island_sabaody", duration_hours := 6,
      reward_berrys := 1000, required_crew_count := 5,
      specific_crew_member_id := none, order_index := 2, is_repeatable := true },
    { id := "quest_sabaody_3", island_id := "island_sabaody", duration_hours := 10,
      reward_berrys := 1500, required_crew_count := 6,
      specific_crew_member_id := none, order_index := 3, is_repeatable := true } ]

/-- Step 1/2 of the crew seeding: the rows as inserted, `unlock_island_id`
forced to `NULL` (`VALUES (?, ?, ?, ?, NULL, ?, 1)`). -/
def seedCrewPass1 : List CrewMemberRow :=
  crewMembersSeed.map (fun m => { m with unlock_island_id := none })

/-- Step 2/2 of the crew seeding: for each seed member with a configured
unlock island, `UPDATE crew_members SET unlock_island_id = ? WHERE id = ?`. -/
def applyCrewBackRefs (rows : List CrewMemberRow) : List CrewMemberRow :=
  crewMembersSeed.foldl (fun acc m =>
    match m.unlock_island_id with
    | some isl => acc.map (fun row =>
        if row.id == m.id then { row with unlock_island_id := some isl } else row)
    | none => acc) rows

/-- One iteration of the final loop of `seedWorldMapData`: give the user the
first island and Luffy, each guarded by an existence check. -/
def seedUserStep (acc : DbState) (uid : String) : DbState :=
  let acc1 := if (uid, rootIslandId) ∈ acc.user_islands then acc
              else WorldMapModel.unlockIsland acc uid rootIslandId
  if (uid, rootCrewId) ∈ acc1.user_crew_members then acc1
  else WorldMapModel.unlockCrewMember acc1 uid rootCrewId

/-- The final loop of `seedWorldMapData`: run `seedUserStep` over every
active user. -/
def seedUserInit (s : DbState) : DbState :=
  (activeUserIds s).foldl seedUserStep s

/-- `seedWorldMapData` of `seed-world-map-data.ts`: when islands already
exist, delete all world-map data (destructive reload); insert the crew rows
with `NULL` back-reference, then the islands, then patch the crew
back-references, then the quests; finally initialize every active user. -/
def seedWorldMapData (s : DbState) : DbState :=
  let s0 := if 0 < s.islands.length then
      { s with quest_history := [], active_quests := [], user_islands := [],
               user_crew_members := [], quests := [], crew_members := [],
               islands := [] }
    else s
  let s1 := { s0 with crew_members := s0.crew_members ++ seedCrewPass1 }
  let s2 := { s1 with islands := s1.islands ++ islandsSeed }
  let s3 := { s2 with crew_members := applyCrewBackRefs s2.crew_members }
  let s4 := { s3 with quests := s3.quests ++ questsSeed }
  seedUserInit s4

/-- Ids of the seeded islands, in seed order. -/
def islandIds : List String := islandsSeed.map (fun i => i.id)

/-- Ids of the seeded islands with no unlock requirement (the roots of the
predecessor relation). -/
def rootIslands : List String :=
  (islandsSeed.filter (fun i => i.unlock_requirement_island_id == none)).map
    (fun i => i.id)

/-- Walk of the successor relation: at each step, the first island whose
`unlock_requirement_island_id` names the current island; `fuel` bounds the
walk. -/
def chainFromAux (isls : List IslandRow) : Nat → String → List String
  | 0, _ => []
  | fuel + 1, cur =>
    match isls.find? (fun i => i.unlock_requirement_island_id == some cur) with
    | some nxt => nxt.id :: chainFromAux isls fuel nxt.id
    | none => []

/-- Catalog-level referential integrity for one crew member (spec §3): its
`unlock_island`, if present, points to an island whose completion reward is
of kind crew member and names this entity. -/
def crewBackRefOk (m : CrewMemberRow) : Bool :=
  match m.unlock_island_id with
  | none => true
  | some islId =>
    match islandsSeed.find? (fun i => i.id == islId) with
    | some isl => isl.final_reward_type == some "crew_member"
        && isl.final_reward_crew_member_id == some m.id
    | none => false

/-- Baseline per-user state (spec §4.4): the user holds the root island
unlock and the root crew-member unlock. -/
def initializedFor (s : DbState) (u : String) : Prop :=
  (u, rootIslandId) ∈ s.user_islands ∧ (u, rootCrewId) ∈ s.user_crew_members

/-- A concrete freshly created user row, used to evaluate the theorems. -/
def sampleUser : UserRow := UserModel.newUserRow "user_1" "alice" "hash"

/-- A concrete database in which `user_1` has the seeded quest catalog, the
baseline unlocks, and one Active quest instance staffed by Luffy. -/
def busyDb : DbState :=
  { emptyDb with
    users := [sampleUser],
    user_islands := [("user_1", rootIslandId)],
    user_crew_members := [("user_1", rootCrewId)],
    quests := questsSeed,
    active_quests := [{ user_id := "user_1", quest_id := "quest_fuchsia_1",
                        crew := [rootCrewId], started_at := 0 }] }

/-! Frame lemmas for the Ledger primitives. -/

theorem unlockIsland_users (s : DbState) (u i : String) :
    (WorldMapModel.unlockIsland s u i).users = s.users := by
  unfold WorldMapModel.unlockIsland; split <;> rfl

theorem unlockIsland_crew_members (s : DbState) (u i : String) :
    (WorldMapModel.unlockIsland s u i).crew_members = s.crew_members := by
  unfold WorldMapModel.unlockIsland; split <;> rfl

theorem unlockIsland_user_crew_members (s : DbState) (u i : String) :
    (WorldMapModel.unlockIsland s u i).user_crew_members = s.user_crew_members := by
  unfold WorldMapModel.unlockIsland; split <;> rfl

theorem unlockIsland_quest_history (s : DbState) (u i : String) :
    (WorldMapModel.unlockIsland s u i).quest_history = s.quest_history := by
  unfold WorldMapModel.unlockIsland; split <;> rfl

theorem unlockCrewMember_users (s : DbState) (u c : String) :
    (WorldMapModel.unlockCrewMember s u c).users = s.users := by
  unfold WorldMapModel.unlockCrewMember; split <;> rfl

theorem unlockCrewMember_crew_members (s : DbState) (u c : String) :
    (WorldMapModel.unlockCrewMember s u c).crew_members = s.crew_members := by
  unfold WorldMapModel.unlockCrewMember; split <;> rfl

theorem unlockCrewMember_user_islands (s : DbState) (u c : String) :
    (WorldMapModel.unlockCrewMember s u c).user_islands = s.user_islands := by
  unfold WorldMapModel.unlockCrewMember; split <;> rfl

theorem unlockCrewMember_quest_history (s : DbState) (u c : String) :
    (WorldMapModel.unlockCrewMember s u c).quest_history = s.quest_history := by
  unfold WorldMapModel.unlockCrewMember; split <;> rfl

theorem mem_unlockIsland_self (s : DbState) (u i : String) :
    (u, i) ∈ (WorldMapModel.unlockIsland s u i).user_islands := by
  unfold WorldMapModel.unlockIsland; split
  · assumption
  · simp

theorem mem_unlockCrewMember_self (s : DbState) (u c : String) :
    (u, c) ∈ (WorldMapModel.unlockCrewMember s u c).user_crew_members := by
  unfold WorldMapModel.unlockCrewMember; split
  · assumption
  · simp

theorem addBerrys_quest_history (s : DbState) (u : String) (a : Int) :
    (UserModel.addBerrys s u a).quest_history = s.quest_history := rfl

theorem addBerrys_user_islands (s : DbState) (u : String) (a : Int) :
    (UserModel.addBerrys s u a).user_islands = s.user_islands := rfl

/-! Claim C2: saturating currency grants. -/

theorem grantBerrysSeq_sat (amounts : List Int) :
    ∀ r : UserRow, (∀ a ∈ amounts, 0 ≤ a) →
      r.berrys.getD 0 ≤ UserModel.MAX_BERRYS →
      UserModel.MAX_BERRYS ≤ r.berrys.getD 0 + amounts.sum →
      (UserModel.grantBerrysSeq r amounts).berrys = some UserModel.MAX_BERRYS := by
  induction amounts with
  | nil =>
    intro r _ hcap hsum
    simp only [List.sum_nil, Int.add_zero] at hsum
    have h0 : r.berrys.getD 0 = UserModel.MAX_BERRYS := le_antisymm hcap hsum
    cases hb : r.berrys with
    | none =>
      rw [hb] at h0
      exact absurd h0 (by decide)
    | some v =>
      rw [hb] at h0
      simp only [Option.getD_some] at h0
      simp [UserModel.grantBerrysSeq, hb, h0]
  | cons a rest ih =>
    intro r hnn hcap hsum
    have hrest : ∀ x ∈ rest, 0 ≤ x := fun x hx => hnn x (List.mem_cons_of_mem a hx)
    have ha : 0 ≤ a := hnn a (List.mem_cons_self a rest)
    have hsumr : 0 ≤ rest.sum := List.sum_nonneg hrest
    have hstep : (UserModel.addBerrysRow r a).berrys.getD 0
        = min (r.berrys.getD 0 + a) UserModel.MAX_BERRYS := rfl
    show (UserModel.grantBerrysSeq (UserModel.addBerrysRow r a) rest).berrys
        = some UserModel.MAX_BERRYS
    apply ih _ hrest
    · rw [hstep]; exact min_le_right _ _
    · rw [hstep]
      simp only [List.sum_cons] at hsum
      rcases le_total (r.berrys.getD 0 + a) UserModel.MAX_BERRYS with hle | hle
      · rw [min_eq_left hle]; omega
      · rw [min_eq_right hle]; omega

/-- Claim C2: `addBerrys` sets `berrys` to `min(prior + amount, 999999999)`
(prior `NULL` read as 0), so any sequence of non-negative grants whose total
reaches the cap leaves the balance at exactly 999,999,999, never higher and
never wrapped negative. -/
theorem addBerrys_saturating (r : UserRow) (amounts : List Int)
    (hcap : r.berrys.getD 0 ≤ UserModel.MAX_BERRYS)
    (hnn : ∀ a ∈ amounts, 0 ≤ a)
    (hsum : UserModel.MAX_BERRYS ≤ r.berrys.getD 0 + amounts.sum) :
    (∀ (r' : UserRow) (amount : Int),
        (UserModel.addBerrysRow r' amount).berrys =
          some (min (r'.berrys.getD 0 + amount) UserModel.MAX_BERRYS)) ∧
    (UserModel.grantBerrysSeq r amounts).berrys = some UserModel.MAX_BERRYS :=
  ⟨fun _ _ => rfl, grantBerrysSeq_sat amounts r hnn hcap hsum⟩

/-- Claim C2, witness: two grants of 999,999,998 and 2 berrys from an empty
balance end at exactly the cap. -/
theorem addBerrys_saturating_witness :
    (sampleUser.berrys.getD 0 ≤ UserModel.MAX_BERRYS) ∧
    (∀ a ∈ [(999999998 : Int), 2], 0 ≤ a) ∧
    (UserModel.MAX_BERRYS ≤ sampleUser.berrys.getD 0 + [(999999998 : Int), 2].sum) ∧
    (UserModel.grantBerrysSeq sampleUser [999999998, 2]).berrys
      = some UserModel.MAX_BERRYS :=
  ⟨by decide, by decide, by decide,
    (addBerrys_saturating sampleUser [999999998, 2]
      (by decide) (by decide) (by decide)).2⟩

/-! Claim C10: no lower bound on `addBerrys`. -/

/-- Claim C10: for a non-positive amount the `MIN` cap never bites, so the
balance becomes exactly `prior + amount`, which is negative whenever
`prior + amount < 0`: the cap guards only the upper end. -/
theorem addBerrys_unbounded_below (r : UserRow) (amount : Int)
    (hcap : r.berrys.getD 0 ≤ UserModel.MAX_BERRYS) (hneg : amount ≤ 0) :
    (UserModel.addBerrysRow r amount).berrys = some (r.berrys.getD 0 + amount) ∧
    (r.berrys.getD 0 + amount < 0 →
      (UserModel.addBerrysRow r amount).berrys.getD 0 < 0) := by
  have hmin : min (r.berrys.getD 0 + amount) UserModel.MAX_BERRYS
      = r.berrys.getD 0 + amount := min_eq_left (by omega)
  constructor
  · show some (min (r.berrys.getD 0 + amount) UserModel.MAX_BERRYS) = _
    rw [hmin]
  · intro h
    show (min (r.berrys.getD 0 + amount) UserModel.MAX_BERRYS) < 0
    rw [hmin]; exact h

/-- Claim C10, witness: granting −5 berrys to an empty balance leaves the
balance at −5, a negative value. -/
theorem addBerrys_unbounded_below_witness :
    (sampleUser.berrys.getD 0 ≤ UserModel.MAX_BERRYS) ∧ ((-5 : Int) ≤ 0) ∧
    (UserModel.addBerrysRow sampleUser (-5)).berrys = some (-5) ∧ ((-5 : Int) < 0) := by
  refine ⟨by decide, by decide, ?_, by decide⟩
  have h := (addBerrys_unbounded_below sampleUser (-5) (by decide) (by decide)).1
  simpa [sampleUser, UserModel.newUserRow] using h

/-! Claim C9: an all-undefined update writes nothing. -/

/-- Claim C9: `UserModel.update` with every field undefined takes the
`fields.length === 0` branch: the state is untouched (`updated_at`
included) and the result is exactly `findById(id)`. -/
theorem update_no_fields_no_write (s : DbState) (id : String)
    (upd : UserModel.UserUpdate) (hash : String → String) (now : String)
    (h1 : upd.username = none) (h2 : upd.password = none)
    (h3 : upd.is_admin = none) (h4 : upd.is_active = none) :
    UserModel.update s id upd hash now = (s, UserModel.findById s id) := by
  simp [UserModel.update, h1, h2, h3, h4]

/-- Claim C9, witness: the empty update on a one-user database returns that
user and leaves the database untouched. -/
theorem update_no_fields_no_write_witness :
    UserModel.update busyDb "user_1" ⟨none, none, none, none⟩ id "2025-01-01"
      = (busyDb, UserModel.findById busyDb "user_1") :=
  update_no_fields_no_write busyDb "user_1" ⟨none, none, none, none⟩ id "2025-01-01"
    rfl rfl rfl rfl

/-! Reconciliation: characterization of `reconcileUser` and the loop
invariants of `initializeExistingUsers`. -/

theorem reconcileUser_eq (s : DbState) (u : String) :
    reconcileUser s u =
      ({ s with
          user_islands :=
            if (u, rootIslandId) ∈ s.user_islands then s.user_islands
            else s.user_islands ++ [(u, rootIslandId)],
          user_crew_members :=
            if (u, rootCrewId) ∈ s.user_crew_members then s.user_crew_members
            else s.user_crew_members ++ [(u, rootCrewId)] },
        !decide ((u, rootIslandId) ∈ s.user_islands)
          || !decide ((u, rootCrewId) ∈ s.user_crew_members)) := by
  by_cases h1 : (u, rootIslandId) ∈ s.user_islands <;>
    by_cases h2 : (u, rootCrewId) ∈ s.user_crew_members <;>
      simp [reconcileUser, WorldMapModel.unlockIsland,
        WorldMapModel.unlockCrewMember, h1, h2]

theorem reconcileUser_initialized (s : DbState) (u : String) :
    initializedFor (reconcileUser s u).1 u := by
  rw [initializedFor, reconcileUser_eq]
  constructor <;> · dsimp only; split <;> simp_all

theorem reconcileUser_mono (s : DbState) (u v : String)
    (h : initializedFor s v) : initializedFor (reconcileUser s u).1 v := by
  obtain ⟨h1, h2⟩ := h
  rw [initializedFor, reconcileUser_eq]
  constructor <;> · dsimp only; split <;> simp_all

theorem reconcileUser_of_initialized (s : DbState) (u : String)
    (h : initializedFor s u) : reconcileUser s u = (s, false) := by
  obtain ⟨h1, h2⟩ := h
  rw [reconcileUser_eq]
  simp [h1, h2]

theorem reconcileUser_users (s : DbState) (u : String) :
    (reconcileUser s u).1.users = s.users := by
  rw [reconcileUser_eq]

theorem reconcileUser_quest_history (s : DbState) (u : String) :
    (reconcileUser s u).1.quest_history = s.quest_history := by
  rw [reconcileUser_eq]

theorem initUsersLoop_users (l : List String) (s : DbState) :
    (initUsersLoop s l).1.users = s.users := by
  induction l generalizing s with
  | nil => rfl
  | cons u rest ih =>
    simp only [initUsersLoop]
    rw [ih, reconcileUser_users]

theorem initUsersLoop_quest_history (l : List String) (s : DbState) :
    (initUsersLoop s l).1.quest_history = s.quest_history := by
  induction l generalizing s with
  | nil => rfl
  | cons u rest ih =>
    simp only [initUsersLoop]
    rw [ih, reconcileUser_quest_history]

theorem initUsersLoop_mono (l : List String) (s : DbState) (v : String)
    (h : initializedFor s v) : initializedFor (initUsersLoop s l).1 v := by
  induction l generalizing s with
  | nil => exact h
  | cons u rest ih =>
    simp only [initUsersLoop]
    exact ih _ (reconcileUser_mono s u v h)

theorem initUsersLoop_initializes (l : List String) (s : DbState) :
    ∀ v ∈ l, initializedFor (initUsersLoop s l).1 v := by
  induction l generalizing s with
  | nil => intro v hv; cases hv
  | cons u rest ih =>
    intro v hv
    simp only [initUsersLoop]
    rcases List.mem_cons.mp hv with rfl | hv'
    · exact initUsersLoop_mono rest _ v (reconcileUser_initialized s v)
    · exact ih _ v hv'

theorem initUsersLoop_of_initialized (l : List String) (s : DbState)
    (h : ∀ v ∈ l, initializedFor s v) : initUsersLoop s l = (s, 0) := by
  induction l generalizing s with
  | nil => rfl
  | cons u rest ih =>
    have hu : initializedFor s u := h u (List.mem_cons_self u rest)
    simp only [initUsersLoop, reconcileUser_of_initialized s u hu]
    rw [ih s (fun v hv => h v (List.mem_cons_of_mem u hv))]
    simp

/-- Claim C1: reconciliation is idempotent: running
`initializeExistingUsers` a second time right after a first run leaves the
state exactly as the first run left it and reports zero users initialized. -/
theorem initializeExistingUsers_idempotent (s : DbState) :
    initializeExistingUsers (initializeExistingUsers s).1 =
      ((initializeExistingUsers s).1, 0) := by
  unfold initializeExistingUsers
  have hids : activeUserIds (initUsersLoop s (activeUserIds s)).1 = activeUserIds s := by
    unfold activeUserIds
    rw [initUsersLoop_users]
  rw [hids]
  exact initUsersLoop_of_initialized _ _
    (fun v hv => initUsersLoop_initializes _ _ v hv)

/-- Claim C3: one `reconcileUser` pass leaves the user holding the root
island and root crew-member unlocks regardless of prior state, while the
user tables change by at most those two rows and every other table (users,
active quests, history, catalog) is untouched — so no other progression
state is inspected or altered. -/
theorem reconcileUser_baseline (s : DbState) (u : String) :
    (u, rootIslandId) ∈ (reconcileUser s u).1.user_islands ∧
    (u, rootCrewId) ∈ (reconcileUser s u).1.user_crew_members ∧
    (reconcileUser s u).1.user_islands =
      (if (u, rootIslandId) ∈ s.user_islands then s.user_islands
       else s.user_islands ++ [(u, rootIslandId)]) ∧
    (reconcileUser s u).1.user_crew_members =
      (if (u, rootCrewId) ∈ s.user_crew_members then s.user_crew_members
       else s.user_crew_members ++ [(u, rootCrewId)]) ∧
    (reconcileUser s u).1.users = s.users ∧
    (reconcileUser s u).1.active_quests = s.active_quests ∧
    (reconcileUser s u).1.quest_history = s.quest_history ∧
    (reconcileUser s u).1.islands = s.islands ∧
    (reconcileUser s u).1.crew_members = s.crew_members ∧
    (reconcileUser s u).1.quests = s.quests := by
  obtain ⟨hi, hc⟩ := reconcileUser_initialized s u
  refine ⟨hi, hc, ?_, ?_, ?_, ?_, ?_, ?_, ?_, ?_⟩ <;> rw [reconcileUser_eq]

/-! Claim C6: account creation is not blocked by a failing baseline grant. -/

theorem find?_user_append (l : List UserRow) (id : String) (row : UserRow)
    (hrow : (row.id == id && row.is_active) = true)
    (hfresh : ∀ r ∈ l, r.id ≠ id) :
    (l ++ [row]).find? (fun r => r.id == id && r.is_active) = some row := by
  induction l with
  | nil => simp [List.find?, hrow]
  | cons a rest ih =>
    have hane : a.id ≠ id := hfresh a (List.mem_cons_self a rest)
    have ha : (a.id == id && a.is_active) = false := by
      rw [beq_eq_false_iff_ne.mpr hane, Bool.false_and]
    rw [List.cons_append, List.find?_cons_of_neg _ (by simp [ha])]
    exact ih (fun r hr => hfresh r (List.mem_cons_of_mem a hr))

theorem findById_after_insert (s : DbState) (id username hashed : String)
    (hfresh : ∀ r ∈ s.users, r.id ≠ id) :
    UserModel.findById
        { s with users := s.users ++ [UserModel.newUserRow id username hashed] } id
      = some (UserModel.newUserRow id username hashed) := by
  unfold UserModel.findById
  exact find?_user_append s.users id _ (by simp [UserModel.newUserRow]) hfresh

/-- Claim C6: `UserModel.create` returns the newly inserted user whatever
happens inside the unlock `try` block (0, 1 or 2 unlock calls completed
before a throw): the row is inserted first, the failure is swallowed, and
when nothing throws both baseline unlocks are present afterwards. -/
theorem create_unlock_failure_nonfatal (s : DbState) (id username hashed : String)
    (unlocksDone : Nat) (hfresh : ∀ r ∈ s.users, r.id ≠ id) :
    (UserModel.create s id username hashed unlocksDone).2 =
      Except.ok (UserModel.newUserRow id username hashed) ∧
    UserModel.newUserRow id username hashed ∈
      (UserModel.create s id username hashed unlocksDone).1.users ∧
    (id, rootIslandId) ∈ (UserModel.create s id username hashed 2).1.user_islands ∧
    (id, rootCrewId) ∈ (UserModel.create s id username hashed 2).1.user_crew_members := by
  unfold UserModel.create
  dsimp only
  rw [findById_after_insert s id username hashed hfresh]
  refine ⟨rfl, ?_, ?_, ?_⟩
  · dsimp only
    split <;> [skip; skip] <;> split <;>
      simp [unlockCrewMember_users, unlockIsland_users]
  · dsimp only
    rw [if_pos (by omega), if_pos (by omega), unlockCrewMember_user_islands]
    exact mem_unlockIsland_self _ id rootIslandId
  · dsimp only
    rw [if_pos (by omega), if_pos (by omega)]
    exact mem_unlockCrewMember_self _ id rootCrewId

/-- Claim C6, witness: creating `user_1` in the empty database with the
unlock step throwing before any unlock call still returns the new user. -/
theorem create_unlock_failure_nonfatal_witness :
    (∀ r ∈ emptyDb.users, r.id ≠ "user_1") ∧
    (UserModel.create emptyDb "user_1" "alice" "hash" 0).2 =
      Except.ok (UserModel.newUserRow "user_1" "alice" "hash") ∧
    UserModel.newUserRow "user_1" "alice" "hash" ∈
      (UserModel.create emptyDb "user_1" "alice" "hash" 0).1.users ∧
    (("user_1", rootIslandId) ∈
      (UserModel.create emptyDb "user_1" "alice" "hash" 2).1.user_islands) ∧
    (("user_1", rootCrewId) ∈
      (UserModel.create emptyDb "user_1" "alice" "hash" 2).1.user_crew_members) :=
  ⟨fun r hr => absurd hr (List.not_mem_nil r),
    create_unlock_failure_nonfatal emptyDb "user_1" "alice" "hash" 0
      (fun r hr => absurd hr (List.not_mem_nil r))⟩

/-! Claim C4: companion exclusivity for quest Start. -/

/-- Claim C4: a Start call that supplies a companion already assigned to one
of the user's Active instances is rejected with `PreconditionViolation` and
leaves the state untouched: no new instance, no partial write. -/
theorem startQuest_companion_exclusive (s : DbState) (userId questId : String)
    (companions : List String) (now : Nat) (c : String)
    (hc : c ∈ companions) (hbusy : companionBusy s userId c = true) :
    (startQuest s userId questId companions now).1 = s ∧
    (startQuest s userId questId companions now).2 =
      Except.error SchedulerError.PreconditionViolation := by
  unfold startQuest
  cases hq : s.quests.find? (fun q => q.id == questId) with
  | none => exact ⟨rfl, rfl⟩
  | some q =>
    dsimp only
    split
    · exact ⟨rfl, rfl⟩
    split
    · exact ⟨rfl, rfl⟩
    split
    · exact ⟨rfl, rfl⟩
    split
    · exact ⟨rfl, rfl⟩
    split
    · exact ⟨rfl, rfl⟩
    rename_i hnotbusy
    exact absurd (List.any_eq_true.mpr ⟨c, hc, hbusy⟩) hnotbusy

/-- Claim C4, witness: with Luffy staffing an Active instance of
`quest_fuchsia_1`, starting `quest_fuchsia_2` with Luffy is rejected and the
state is unchanged. -/
theorem startQuest_companion_exclusive_witness :
    (rootCrewId ∈ [rootCrewId]) ∧
    companionBusy busyDb "user_1" rootCrewId = true ∧
    (startQuest busyDb "user_1" "quest_fuchsia_2" [rootCrewId] 5).1 = busyDb ∧
    (startQuest busyDb "user_1" "quest_fuchsia_2" [rootCrewId] 5).2 =
      Except.error SchedulerError.PreconditionViolation := by
  refine ⟨List.mem_cons_self _ _, by decide, ?_⟩
  exact startQuest_companion_exclusive busyDb "user_1" "quest_fuchsia_2"
    [rootCrewId] 5 rootCrewId (List.mem_cons_self _ _) (by decide)

/-! Claim C5: the quest-history store is append-only under every
normal-operation engine step. -/

theorem grantReward_quest_history (s : DbState) (u : String) (r : Reward) :
    (grantReward s u r).quest_history = s.quest_history := by
  cases r with
  | berrysAmount a => exact addBerrys_quest_history s u a
  | crewMemberId c => exact unlockCrewMember_quest_history s u c

theorem grantIslandReward_quest_history (s : DbState) (u : String) (isl : IslandRow) :
    (grantIslandReward s u isl).quest_history = s.quest_history := by
  unfold grantIslandReward
  split
  · split
    · exact addBerrys_quest_history _ _ _
    · rfl
  · split
    · exact unlockCrewMember_quest_history _ _ _
    · rfl
  · rfl

theorem unlockNextAfter_quest_history (s : DbState) (u i : String) :
    (unlockNextAfter s u i).quest_history = s.quest_history := by
  unfold unlockNextAfter
  dsimp only
  split
  · rename_i nxt _
    rw [unlockIsland_quest_history]
    split
    · exact grantIslandReward_quest_history _ _ _
    · rfl
  · split
    · exact grantIslandReward_quest_history _ _ _
    · rfl

theorem startQuest_quest_history (s : DbState) (u q : String)
    (comps : List String) (now : Nat) :
    (startQuest s u q comps now).1.quest_history = s.quest_history := by
  unfold startQuest
  split
  · rfl
  · dsimp only
    split
    · rfl
    split
    · rfl
    split
    · rfl
    split
    · rfl
    split
    · rfl
    split
    · rfl
    · rfl

theorem collectQuest_quest_history (cleared : DbState → String → String → Bool)
    (s : DbState) (u : String) (idx now : Nat) :
    ∃ tail, (collectQuest cleared s u idx now).1.quest_history
      = s.quest_history ++ tail := by
  unfold collectQuest
  split
  · exact ⟨[], by simp⟩
  · dsimp only
    split
    · exact ⟨[], by simp⟩
    · split
      · exact ⟨[], by simp⟩
      · split
        · exact ⟨[], by simp⟩
        · dsimp only
          split
          · exact ⟨_, by rw [unlockNextAfter_quest_history, addBerrys_quest_history]⟩
          · exact ⟨_, by rw [addBerrys_quest_history]⟩

/-- Claim C5: every engine operation in normal operation (Ledger primitives,
reconciliation, Start, Collect) leaves the existing quest-history rows in
place: the new history is the old one plus an appended (possibly empty)
tail; no row is mutated or deleted. The only code that clears history is the
destructive reload inside `seedWorldMapData`, the offline catalog loader of
§6, not a normal-operation engine op. -/
theorem quest_history_append_only (cleared : DbState → String → String → Bool)
    (s : DbState) (op : EngineOp) :
    ∃ tail, (engineStep cleared s op).quest_history = s.quest_history ++ tail := by
  cases op with
  | unlockIslandOp u i =>
    exact ⟨[], by simp [engineStep, unlockIsland_quest_history]⟩
  | unlockCrewMemberOp u c =>
    exact ⟨[], by simp [engineStep, unlockCrewMember_quest_history]⟩
  | grantRewardOp u r =>
    exact ⟨[], by simp [engineStep, grantReward_quest_history]⟩
  | reconcileUserOp u =>
    exact ⟨[], by simp [engineStep, reconcileUser_quest_history]⟩
  | reconcileAllOp =>
    exact ⟨[], by simp [engineStep, initializeExistingUsers,
      initUsersLoop_quest_history]⟩
  | startQuestOp u q comps now =>
    exact ⟨[], by simp [engineStep, startQuest_quest_history]⟩
  | collectQuestOp u idx now =>
    exact collectQuest_quest_history cleared s u idx now

/-! Claim C7: two-pass crew seeding. -/

theorem seedUserStep_crew_members (s : DbState) (uid : String) :
    (seedUserStep s uid).crew_members = s.crew_members := by
  unfold seedUserStep
  dsimp only
  split
  · split <;> simp [unlockCrewMember_crew_members]
  · split <;>
      simp [unlockCrewMember_crew_members, unlockIsland_crew_members]

theorem foldl_seedUserStep_crew_members (l : List String) (s : DbState) :
    (l.foldl seedUserStep s).crew_members = s.crew_members := by
  induction l generalizing s with
  | nil => rfl
  | cons u rest ih =>
    rw [List.foldl_cons, ih, seedUserStep_crew_members]

/-- Claim C7: `seedWorldMapData` inserts every crew row with a `NULL`
`unlock_island_id` (pass 1), inserts the islands, then patches each
configured back-reference (pass 2); afterwards every crew-member row's
`unlock_island_id` equals the value of its seed definition. The hypothesis
rules out a half-populated store (no islands yet stray crew rows), which the
destructive-reload branch cannot clean. -/
theorem seedWorldMapData_two_pass (s : DbState)
    (h : s.islands = [] → s.crew_members = []) :
    (∀ m ∈ seedCrewPass1, m.unlock_island_id = none) ∧
    (seedWorldMapData s).crew_members = crewMembersSeed := by
  refine ⟨by decide, ?_⟩
  unfold seedWorldMapData seedUserInit
  rw [foldl_seedUserStep_crew_members]
  dsimp only
  by_cases hisl : s.islands = []
  · have hc : s.crew_members = [] := h hisl
    rw [if_neg (by simp [hisl]), hc]
    decide
  · rw [if_pos (by cases hs : s.islands with
      | nil => exact absurd hs hisl
      | cons a t => simp)]
    dsimp only
    decide

/-- Claim C7, witness: seeding the empty database yields exactly the seed
crew table, back-references included. -/
theorem seedWorldMapData_two_pass_witness :
    (emptyDb.islands = [] → emptyDb.crew_members = []) ∧
    ((∀ m ∈ seedCrewPass1, m.unlock_island_id = none) ∧
      (seedWorldMapData emptyDb).crew_members = crewMembersSeed) :=
  ⟨fun _ => rfl, seedWorldMapData_two_pass emptyDb (fun _ => rfl)⟩

/-! Claim C8: the seeded catalog satisfies both catalog invariants. -/

/-- Claim C8: the twelve seeded islands' predecessor references form a
single acyclic chain: `island_windmill_village` is the unique root, the ids
are pairwise distinct, and the successor walk from the root enumerates all
twelve islands; and every crew member with a configured `unlock_island_id`
points to an island whose final reward is of kind `crew_member` and names
exactly that crew member. -/
theorem catalog_invariants :
    rootIslands = [rootIslandId] ∧
    islandIds.Nodup ∧
    rootIslandId :: chainFromAux islandsSeed (islandsSeed.length - 1) rootIslandId
      = islandIds ∧
    crewMembersSeed.all crewBackRefOk = true := by
  refine ⟨by decide, by decide, by decide, by decide⟩
